import Mathlib

/-!
Verification of the JWT signing-key lifecycle manager and token verification
engine of `backend/app/core/security.py` (functions `rotate_jwt_keys`,
`create_access_token`, `create_refresh_token`, `_find_key_for_token`,
`verify_token`) against its natural-language specification.

Modelling conventions (shallow embedding):

* RSA key material (PEM strings in the source) is modelled by `Nat`
  identifiers.  `key_manager.rotate_keys()` returns a fresh key pair; a pair
  generated together shares one identifier between its private and public
  halves, and an RS256 signature produced with private key `p` verifies under
  public key `q` iff `q = p`.  The HS256 shared secret is likewise a `Nat`.
* Timestamps (`time.time()` / `int(time.time())`) are `Nat` seconds supplied
  as explicit arguments, since the source reads the wall clock.
* The module-level globals `_current_keys : Dict` (either the empty dict or a
  fully-populated key record) and `_archived_keys : List[Dict]` become a
  `RegistryState` record threaded explicitly; `_current_keys = {}` is
  `none`.
* `key_manager.rotate_keys()` may raise; it is passed in as an
  `Except String Nat` argument (`.ok n` = a fresh pair with identifier `n`,
  `.error e` = the raised exception's message).
* A JWT on the wire is either a structurally valid three-part token
  (`Token.wellFormed`) carrying its payload, header algorithm and the key
  that produced its signature, or an unparseable string (`Token.malformed`).
  The `python-jose` primitives `jwt.get_unverified_claims` and `jwt.decode`
  are embedded as total functions into `Except JWTErrorKind _`, mirroring
  the exceptions the library raises (parse failure, disallowed `alg` header,
  signature mismatch, expiry: a token is expired iff `exp < now`).
* JSON claim values are typed: `sub`/`type`/`kid` are `Option String`
  (`none` = claim absent), `exp` is `Option Nat`.
-/

namespace Security

/-- One key record as stored in the `_current_keys` dict: fields
`"private"`, `"public"`, `"created_at"`, `"key_id"` (the `"status"` string
also stored by the source carries no information used by any operation and
is omitted). -/
structure KeyEntry where
  privateKey : Nat
  publicKey : Nat
  created_at : Nat
  key_id : String
  deriving Repr, DecidableEq

/-- An element of `_archived_keys`: the archived copy `{**_current_keys,
"archived_at": time.time(), "status": "archived"}`. -/
structure ArchivedKey where
  key : KeyEntry
  archived_at : Nat
  deriving Repr, DecidableEq

/-- The module-level mutable key state of `security.py`: the globals
`_current_keys` (empty dict ↦ `none`) and `_archived_keys`. -/
structure RegistryState where
  current_keys : Option KeyEntry
  archived_keys : List ArchivedKey
  deriving Repr, DecidableEq

/-- The state after the module-initialisation block succeeded:
`_current_keys = {"private": P, "public": P, "created_at": t0,
"key_id": "initial"}` and no archived keys. -/
def bootstrappedState (P t0 : Nat) : RegistryState :=
  { current_keys := some { privateKey := P, publicKey := P, created_at := t0, key_id := "initial" },
    archived_keys := [] }

/-- The state when RSA initialisation failed: `_current_keys` stays the
empty dict and `_archived_keys` stays empty. -/
def unbootstrappedState : RegistryState :=
  { current_keys := none, archived_keys := [] }

/-- The key id minted by `rotate_jwt_keys`: `f"key_{int(time.time())}"`. -/
def mkKeyId (t : Nat) : String :=
  "key_" ++ toString t

/-- Result dict of `rotate_jwt_keys`: either
`{"key_id": …, "created_at": …, "status": "success"}` or
`{"status": "error", "error": str(e)}`. -/
inductive RotateResult where
  | success (key_id : String) (created_at : Nat)
  | error (msg : String)
  deriving Repr, DecidableEq

/-- `rotate_jwt_keys()` of `security.py`.  `gen` is the outcome of
`key_manager.rotate_keys()` (the only fallible step inside the `try`),
`t` the current integer time.  Source order: archive the current key (if
any), then generate, then replace `_current_keys`, then trim
`_archived_keys` once to at most drop one element from the front when its
length exceeds 5; on an exception the partial mutations (the archive
append) remain and an error result is returned. -/
def rotate_jwt_keys (st : RegistryState) (gen : Except String Nat) (t : Nat) :
    RegistryState × RotateResult :=
  let archived1 : List ArchivedKey :=
    match st.current_keys with
    | some ck => st.archived_keys ++ [{ key := ck, archived_at := t }]
    | none => st.archived_keys
  match gen with
  | .error e => ({ st with archived_keys := archived1 }, .error e)
  | .ok n =>
    let key_id := mkKeyId t
    let newCurrent : KeyEntry :=
      { privateKey := n, publicKey := n, created_at := t, key_id := key_id }
    let archived2 := if archived1.length > 5 then archived1.drop 1 else archived1
    ({ current_keys := some newCurrent, archived_keys := archived2 },
     .success key_id t)

/-- A sequence of `rotate_jwt_keys` calls, each with its generation outcome
and call time, applied left to right. -/
def rotateMany (st : RegistryState) : List (Except String Nat × Nat) → RegistryState
  | [] => st
  | ev :: evs => rotateMany (rotate_jwt_keys st ev.1 ev.2).1 evs

/-- JWT header algorithm. -/
inductive Alg where
  | RS256
  | HS256
  deriving Repr, DecidableEq

/-- The claims of a token payload that `security.py` reads: `sub`, `exp`,
`type`, `kid`; `none` models an absent claim. -/
structure Payload where
  sub : Option String
  exp : Option Nat
  type : Option String
  kid : Option String
  deriving Repr, DecidableEq

/-- A structurally valid three-part JWT: payload, header `alg`, and the
key material that produced its signature (private RSA key for RS256, the
shared secret for HS256). -/
structure SignedToken where
  payload : Payload
  alg : Alg
  sigKey : Nat
  deriving Repr, DecidableEq

/-- A token string handed to the verifier: either parseable or garbage. -/
inductive Token where
  | wellFormed (tok : SignedToken)
  | malformed (raw : String)
  deriving Repr, DecidableEq

/-- The `jose.JWTError` conditions relevant here. -/
inductive JWTErrorKind where
  | malformedToken
  | algNotAllowed
  | badSignature
  | expiredSignature
  deriving Repr, DecidableEq

/-- `jwt.get_unverified_claims(token)`: payload without signature check;
raises on an unparseable token. -/
def get_unverified_claims : Token → Except JWTErrorKind Payload
  | .wellFormed tok => .ok tok.payload
  | .malformed _ => .error .malformedToken

/-- `jwt.decode(token, key, algorithms=[alg])` at time `now`: parse, check
the header algorithm against the allowed list, verify the signature with
`key`, then validate the `exp` claim (expired iff `exp < now`; a missing
`exp` passes). -/
def jwt_decode (tok : Token) (key : Nat) (alg : Alg) (now : Nat) :
    Except JWTErrorKind Payload :=
  match tok with
  | .malformed _ => .error .malformedToken
  | .wellFormed t =>
    if t.alg ≠ alg then .error .algNotAllowed
    else if t.sigKey ≠ key then .error .badSignature
    else
      match t.payload.exp with
      | some e => if e < now then .error .expiredSignature else .ok t.payload
      | none => .ok t.payload

/-- `create_access_token(subject, expires_delta)`.  `cfgAccessDelta` is
`settings.JWT_ACCESS_TOKEN_EXPIRE_MINUTES` converted to seconds, `secret`
is `settings.JWT_SECRET_KEY`, `now` the current time.  Signs with RS256
under the current private key when one exists, else HS256 under the shared
secret; embeds `sub = str(subject)`, `type = "access"` and
`kid = current key_id or "fallback"`. -/
def create_access_token (st : RegistryState) (secret : Nat) (cfgAccessDelta : Nat)
    (now : Nat) (expires_delta : Option Nat) (subject : String) : SignedToken :=
  let expire : Nat :=
    match expires_delta with
    | some d => now + d
    | none => now + cfgAccessDelta
  let current_keys := st.current_keys
  let kid : String :=
    match current_keys with
    | some ck => ck.key_id
    | none => "fallback"
  let toEncode : Payload :=
    { sub := some subject, exp := some expire, type := some "access", kid := some kid }
  match current_keys with
  | some ck => { payload := toEncode, alg := .RS256, sigKey := ck.privateKey }
  | none => { payload := toEncode, alg := .HS256, sigKey := secret }

/-- `create_refresh_token(subject, expires_delta)`; identical to access
issuance except for the default lifetime
(`settings.JWT_REFRESH_TOKEN_EXPIRE_DAYS`) and `type = "refresh"`. -/
def create_refresh_token (st : RegistryState) (secret : Nat) (cfgRefreshDelta : Nat)
    (now : Nat) (expires_delta : Option Nat) (subject : String) : SignedToken :=
  let expire : Nat :=
    match expires_delta with
    | some d => now + d
    | none => now + cfgRefreshDelta
  let current_keys := st.current_keys
  let kid : String :=
    match current_keys with
    | some ck => ck.key_id
    | none => "fallback"
  let toEncode : Payload :=
    { sub := some subject, exp := some expire, type := some "refresh", kid := some kid }
  match current_keys with
  | some ck => { payload := toEncode, alg := .RS256, sigKey := ck.privateKey }
  | none => { payload := toEncode, alg := .HS256, sigKey := secret }

/-- `_find_key_for_token(token)`: read the unverified `kid` claim; if that
raises, fall back to the current public key.  Otherwise return the current
public key when the `kid` equals the current `key_id` or is falsy (`None`
or `""`), else scan `_archived_keys` most-recent-first for a matching
`key_id`. -/
def find_key_for_token (st : RegistryState) (tok : Token) : Option Nat :=
  match get_unverified_claims tok with
  | .error _ => st.current_keys.map (fun ck => ck.publicKey)
  | .ok payload =>
    let token_kid := payload.kid
    if token_kid = st.current_keys.map (fun ck => ck.key_id)
        ∨ token_kid = none ∨ token_kid = some "" then
      st.current_keys.map (fun ck => ck.publicKey)
    else
      match st.archived_keys.reverse.find? (fun ak => token_kid = some ak.key.key_id) with
      | some ak => some ak.key.publicKey
      | none => none

/-- `verify_token(token, token_type)`: resolve a public key via
`_find_key_for_token`; if one resolves, try an RS256 decode; on failure (or
no key) fall back to an HS256 decode with the shared secret; then require
the `type` claim to equal `token_type` and return the `sub` claim, `None`
on any failure. -/
def verify_token (st : RegistryState) (secret : Nat) (now : Nat)
    (tok : Token) (token_type : String) : Option String :=
  let public_key := find_key_for_token st tok
  let payload1 : Option Payload :=
    match public_key with
    | some pk => (jwt_decode tok pk .RS256 now).toOption
    | none => none
  let payload2 : Option Payload :=
    match payload1 with
    | some p => some p
    | none => (jwt_decode tok secret .HS256 now).toOption
  match payload2 with
  | none => none
  | some payload =>
    if payload.type ≠ some token_type then none
    else
      match payload.sub with
      | none => none
      | some s => some s

/-! ### Decimal rendering: `Nat.repr` is injective

`mkKeyId` embeds `f"key_{int(time.time())}"`; distinctness of minted key
ids reduces to injectivity of the decimal rendering of `Nat`. -/

/-- Canonical decimal digit list of `n`, most significant digit first. -/
def digitsOf (n : Nat) : List Char :=
  if h : n < 10 then [Nat.digitChar n]
  else
    have : n / 10 < n := Nat.div_lt_self (by omega) (by omega)
    digitsOf (n / 10) ++ [Nat.digitChar (n % 10)]
termination_by n

theorem digitsOf_lt (n : Nat) (h : n < 10) : digitsOf n = [Nat.digitChar n] := by
  rw [digitsOf, dif_pos h]

theorem digitsOf_ge (n : Nat) (h : ¬ n < 10) :
    digitsOf n = digitsOf (n / 10) ++ [Nat.digitChar (n % 10)] := by
  rw [digitsOf, dif_neg h]

theorem digitsOf_ne_nil (n : Nat) : digitsOf n ≠ [] := by
  by_cases h : n < 10
  · rw [digitsOf_lt n h]; simp
  · rw [digitsOf_ge n h]; simp

theorem toDigitsCore_eq_digitsOf (fuel : Nat) :
    ∀ (n : Nat) (ds : List Char), n < fuel →
      Nat.toDigitsCore 10 fuel n ds = digitsOf n ++ ds := by
  induction fuel with
  | zero => intro n ds h; omega
  | succ f ih =>
    intro n ds h
    show (if n / 10 = 0 then Nat.digitChar (n % 10) :: ds
          else Nat.toDigitsCore 10 f (n / 10) (Nat.digitChar (n % 10) :: ds)) =
        digitsOf n ++ ds
    by_cases h10 : n < 10
    · rw [if_pos (Nat.div_eq_of_lt h10), digitsOf_lt n h10,
        Nat.mod_eq_of_lt h10]
      simp
    · have hdiv : n / 10 ≠ 0 := by omega
      have hlt : n / 10 < f := by
        have h1 : n / 10 < n := Nat.div_lt_self (by omega) (by omega)
        omega
      rw [if_neg hdiv, ih (n / 10) (Nat.digitChar (n % 10) :: ds) hlt,
        digitsOf_ge n h10, List.append_assoc]
      rfl

theorem repr_eq_digitsOf (n : Nat) : Nat.repr n = (digitsOf n).asString := by
  show (Nat.toDigitsCore 10 (n + 1) n []).asString = (digitsOf n).asString
  rw [toDigitsCore_eq_digitsOf (n + 1) n [] (Nat.lt_succ_self n), List.append_nil]

theorem digitChar_inj_lt :
    ∀ a < 10, ∀ b < 10, Nat.digitChar a = Nat.digitChar b → a = b := by decide

theorem length_digitsOf_pos (n : Nat) : 0 < (digitsOf n).length :=
  List.length_pos.mpr (digitsOf_ne_nil n)

theorem digitsOf_injective : Function.Injective digitsOf := by
  intro m n
  induction m using Nat.strong_induction_on generalizing n with
  | _ m ih =>
    intro h
    by_cases hm : m < 10 <;> by_cases hn : n < 10
    · rw [digitsOf_lt m hm, digitsOf_lt n hn] at h
      exact digitChar_inj_lt m hm n hn (List.singleton_injective h)
    · rw [digitsOf_lt m hm, digitsOf_ge n hn] at h
      have hlen := congrArg List.length h
      rw [List.length_append] at hlen
      simp only [List.length_singleton] at hlen
      have hpos := length_digitsOf_pos (n / 10)
      omega
    · rw [digitsOf_ge m hm, digitsOf_lt n hn] at h
      have hlen := congrArg List.length h
      rw [List.length_append] at hlen
      simp only [List.length_singleton] at hlen
      have hpos := length_digitsOf_pos (m / 10)
      omega
    · rw [digitsOf_ge m hm, digitsOf_ge n hn] at h
      have hparts := List.append_inj' h (by simp)
      have hdiv : m / 10 = n / 10 :=
        ih (m / 10) (Nat.div_lt_self (by omega) (by omega)) hparts.1
      have hmod : m % 10 = n % 10 :=
        digitChar_inj_lt (m % 10) (Nat.mod_lt m (by omega)) (n % 10)
          (Nat.mod_lt n (by omega)) (List.singleton_injective hparts.2)
      omega

theorem natRepr_injective : Function.Injective Nat.repr := by
  intro m n h
  rw [repr_eq_digitsOf, repr_eq_digitsOf] at h
  exact digitsOf_injective (by
    have : (digitsOf m).asString.data = (digitsOf n).asString.data := congrArg String.data h
    simpa using this)

theorem mkKeyId_injective : Function.Injective mkKeyId := by
  intro s t h
  have hdata : ("key_" ++ toString s).data = ("key_" ++ toString t).data :=
    congrArg String.data h
  rw [String.data_append, String.data_append] at hdata
  have hd : (toString s).data = (toString t).data := List.append_cancel_left hdata
  exact natRepr_injective (String.ext hd)

theorem mkKeyId_ne_initial (t : Nat) : mkKeyId t ≠ "initial" := by
  intro h
  have hdata := congrArg String.data h
  rw [show mkKeyId t = "key_" ++ toString t from rfl, String.data_append] at hdata
  have : "key_".data = ['k', 'e', 'y', '_'] := rfl
  rw [this] at hdata
  have : "initial".data = ['i', 'n', 'i', 't', 'i', 'a', 'l'] := rfl
  rw [this] at hdata
  simp at hdata

theorem mkKeyId_ne_empty (t : Nat) : mkKeyId t ≠ "" := by
  intro h
  have hdata := congrArg String.data h
  rw [show mkKeyId t = "key_" ++ toString t from rfl, String.data_append] at hdata
  have : "key_".data = ['k', 'e', 'y', '_'] := rfl
  rw [this] at hdata
  simp at hdata

/-! ### Claim C1 — rotation is *not* all-or-nothing -/

/-- Claim C1 (counterexample).  A failing rotation does not leave the
registry untouched: starting from the bootstrapped registry, a rotation
whose key generation raises returns a failure result, yet the archived-key
sequence has gained an entry (a copy of the still-current key). -/
theorem C1_counterexample :
    (rotate_jwt_keys (bootstrappedState 1 0) (Except.error "disk full") 5).2 =
      RotateResult.error "disk full" ∧
    (rotate_jwt_keys (bootstrappedState 1 0) (Except.error "disk full") 5).1.archived_keys ≠
      (bootstrappedState 1 0).archived_keys := by
  exact ⟨rfl, by decide⟩

/-- Claim C1 (amended).  If `rotate_jwt_keys` fails, it returns a failure
result and the current key entry is unchanged, but rotation is not
all-or-nothing: the archived-key sequence has gained exactly one entry — an
archived copy of the current key — whenever a current key exists (and is
unchanged only when the registry holds no current key). -/
theorem C1_rotation_failure_keeps_current_but_grows_archive
    (st : RegistryState) (e : String) (t : Nat) :
    (rotate_jwt_keys st (Except.error e) t).2 = RotateResult.error e ∧
    (rotate_jwt_keys st (Except.error e) t).1.current_keys = st.current_keys ∧
    (rotate_jwt_keys st (Except.error e) t).1.archived_keys =
      (match st.current_keys with
       | some ck => st.archived_keys ++ [{ key := ck, archived_at := t }]
       | none => st.archived_keys) := by
  refine ⟨rfl, rfl, rfl⟩

/-! ### Claim C4 — issuance with no current key falls back to HS256 -/

/-- Claim C4 (counterexample).  With no current signing key (registry never
bootstrapped), `create_access_token` and `create_refresh_token` do not fail
with a `KeyUnavailable` error: each returns a complete token signed with
HS256 under the shared secret, carrying `kid = "fallback"`. -/
theorem C4_counterexample :
    create_access_token unbootstrappedState 99 600 100 none "alice" =
      { payload := { sub := some "alice", exp := some 700, type := some "access",
                     kid := some "fallback" },
        alg := Alg.HS256, sigKey := 99 } ∧
    create_refresh_token unbootstrappedState 99 1200 100 none "alice" =
      { payload := { sub := some "alice", exp := some 1300, type := some "refresh",
                     kid := some "fallback" },
        alg := Alg.HS256, sigKey := 99 } :=
  ⟨rfl, rfl⟩

/-- Claim C4 (amended).  If the registry holds no current signing key, then
`create_access_token` and `create_refresh_token` do not fail: they fall
back to HS256, signing with the static shared secret and tagging the token
with `kid = "fallback"`. -/
theorem C4_no_current_key_signs_with_shared_secret
    (ak : List ArchivedKey) (secret cfgA cfgR now : Nat)
    (expires_delta : Option Nat) (subject : String) :
    ((create_access_token ⟨none, ak⟩ secret cfgA now expires_delta subject).alg = Alg.HS256 ∧
     (create_access_token ⟨none, ak⟩ secret cfgA now expires_delta subject).sigKey = secret ∧
     (create_access_token ⟨none, ak⟩ secret cfgA now expires_delta subject).payload.kid =
       some "fallback") ∧
    ((create_refresh_token ⟨none, ak⟩ secret cfgR now expires_delta subject).alg = Alg.HS256 ∧
     (create_refresh_token ⟨none, ak⟩ secret cfgR now expires_delta subject).sigKey = secret ∧
     (create_refresh_token ⟨none, ak⟩ secret cfgR now expires_delta subject).payload.kid =
       some "fallback") := by
  refine ⟨⟨rfl, rfl, rfl⟩, ⟨rfl, rfl, rfl⟩⟩

/-! ### Claim C5 — issue/verify round-trip -/

/-- Claim C5 (confirmed).  For every subject, with a registry holding a
current key (an honestly generated pair, private and public halves
matching) that is not mutated in between, and verification occurring no
later than the token's expiry, verifying a freshly issued access token as
an access token succeeds and returns the subject. -/
theorem C5_issue_verify_roundtrip (st : RegistryState) (ck : KeyEntry)
    (secret cfgA now vnow : Nat) (expires_delta : Option Nat) (subject : String)
    (hcur : st.current_keys = some ck) (hkey : ck.privateKey = ck.publicKey)
    (hexp : vnow ≤ (match expires_delta with | some d => now + d | none => now + cfgA)) :
    verify_token st secret vnow
      (Token.wellFormed (create_access_token st secret cfgA now expires_delta subject))
      "access" = some subject := by
  cases expires_delta with
  | some d =>
    have hx : vnow ≤ now + d := hexp
    have hnotlt : ¬ (now + d < vnow) := by omega
    simp [verify_token, find_key_for_token, create_access_token, jwt_decode,
      get_unverified_claims, hcur, hkey, Except.toOption, hnotlt]
  | none =>
    have hx : vnow ≤ now + cfgA := hexp
    have hnotlt : ¬ (now + cfgA < vnow) := by omega
    simp [verify_token, find_key_for_token, create_access_token, jwt_decode,
      get_unverified_claims, hcur, hkey, Except.toOption, hnotlt]

/-- Witness for C5 at concrete inputs. -/
theorem C5_witness :
    verify_token (bootstrappedState 7 0) 99 10
      (Token.wellFormed (create_access_token (bootstrappedState 7 0) 99 600 5 none "alice"))
      "access" = some "alice" :=
  C5_issue_verify_roundtrip (bootstrappedState 7 0)
    { privateKey := 7, publicKey := 7, created_at := 0, key_id := "initial" }
    99 600 5 10 none "alice" rfl rfl (by decide)

/-! ### Claim C2 — the archive cap holds only for successful rotations -/

theorem rotateMany_cons (st : RegistryState) (ev : Except String Nat × Nat)
    (evs : List (Except String Nat × Nat)) :
    rotateMany st (ev :: evs) = rotateMany (rotate_jwt_keys st ev.1 ev.2).1 evs := rfl

theorem rotate_ok_archive_le (st : RegistryState) (n t : Nat)
    (h : st.archived_keys.length ≤ 5) :
    (rotate_jwt_keys st (Except.ok n) t).1.archived_keys.length ≤ 5 := by
  cases hc : st.current_keys with
  | none =>
    simp only [rotate_jwt_keys, hc]
    split
    · simp only [List.length_drop]; omega
    · exact h
  | some ck =>
    simp only [rotate_jwt_keys, hc]
    split
    · simp only [List.length_drop, List.length_append, List.length_singleton]; omega
    · next hle =>
      simp only [not_lt, List.length_append, List.length_singleton] at hle
      simpa using hle

theorem rotateMany_ok_archive_le (evs : List (Except String Nat × Nat)) :
    ∀ st : RegistryState, st.archived_keys.length ≤ 5 →
      (∀ ev ∈ evs, (ev.1).isOk = true) →
      (rotateMany st evs).archived_keys.length ≤ 5 := by
  induction evs with
  | nil => intro st h _; exact h
  | cons ev evs ih =>
    intro st h hok
    rw [rotateMany_cons]
    obtain ⟨g, t⟩ := ev
    cases g with
    | error e =>
      have hbad := hok (Except.error e, t) (List.mem_cons_self _ _)
      simp [Except.isOk, Except.toBool] at hbad
    | ok n =>
      exact ih _ (rotate_ok_archive_le st n t h)
        (fun ev hev => hok ev (List.mem_cons_of_mem _ hev))

/-- Claim C2 (counterexample).  The archive bound does not survive failed
rotation calls: starting from the bootstrapped registry, five successful
rotations followed by one failing rotation leave the archived-key sequence
at length 6, exceeding the cap of 5. -/
theorem C2_counterexample :
    (rotateMany (bootstrappedState 1 0)
      [(Except.ok 11, 1), (Except.ok 12, 2), (Except.ok 13, 3), (Except.ok 14, 4),
       (Except.ok 15, 5), (Except.error "io error", 6)]).archived_keys.length = 6 := by
  rfl

/-- Claim C2 (amended).  After every *successful* call to
`rotate_jwt_keys` (over any sequence of successful rotation calls starting
from the bootstrapped state) the archived-key sequence has length at most
5, and whenever an insertion at the cap would make it exceed 5 the entry
removed is the one at the front, i.e. the oldest archived key; a *failed*
call, however, appends without evicting and can push the archive past the
cap. -/
theorem C2_archive_bounded_with_front_eviction :
    (∀ (P t0 : Nat) (evs : List (Except String Nat × Nat)),
      (∀ ev ∈ evs, (ev.1).isOk = true) →
      (rotateMany (bootstrappedState P t0) evs).archived_keys.length ≤ 5) ∧
    (∀ (st : RegistryState) (ck : KeyEntry) (n t : Nat),
      st.current_keys = some ck → st.archived_keys.length = 5 →
      (rotate_jwt_keys st (Except.ok n) t).1.archived_keys =
        st.archived_keys.drop 1 ++ [{ key := ck, archived_at := t }]) := by
  constructor
  · intro P t0 evs hok
    exact rotateMany_ok_archive_le evs (bootstrappedState P t0) (by simp [bootstrappedState]) hok
  · intro st ck n t hcur hlen
    simp only [rotate_jwt_keys, hcur]
    have hgt : (st.archived_keys ++ [({ key := ck, archived_at := t } : ArchivedKey)]).length > 5 := by
      simp [hlen]
    rw [if_pos hgt, List.drop_append_eq_append_drop]
    simp [hlen]

/-- Witness for C2 at concrete inputs: six successful rotations keep the
archive at the cap, and a successful rotation at the cap evicts the front
entry. -/
theorem C2_witness :
    (rotateMany (bootstrappedState 1 0)
      [(Except.ok 11, 1), (Except.ok 12, 2), (Except.ok 13, 3), (Except.ok 14, 4),
       (Except.ok 15, 5), (Except.ok 16, 6)]).archived_keys.length ≤ 5 ∧
    (rotate_jwt_keys
      { current_keys := some { privateKey := 1, publicKey := 1, created_at := 0, key_id := "f" },
        archived_keys :=
          [{ key := { privateKey := 2, publicKey := 2, created_at := 0, key_id := "a" }, archived_at := 0 },
           { key := { privateKey := 3, publicKey := 3, created_at := 0, key_id := "b" }, archived_at := 0 },
           { key := { privateKey := 4, publicKey := 4, created_at := 0, key_id := "c" }, archived_at := 0 },
           { key := { privateKey := 5, publicKey := 5, created_at := 0, key_id := "d" }, archived_at := 0 },
           { key := { privateKey := 6, publicKey := 6, created_at := 0, key_id := "e" }, archived_at := 0 }] }
      (Except.ok 20) 9).1.archived_keys =
      [{ key := { privateKey := 3, publicKey := 3, created_at := 0, key_id := "b" }, archived_at := 0 },
       { key := { privateKey := 4, publicKey := 4, created_at := 0, key_id := "c" }, archived_at := 0 },
       { key := { privateKey := 5, publicKey := 5, created_at := 0, key_id := "d" }, archived_at := 0 },
       { key := { privateKey := 6, publicKey := 6, created_at := 0, key_id := "e" }, archived_at := 0 },
       { key := { privateKey := 1, publicKey := 1, created_at := 0, key_id := "f" }, archived_at := 9 }] := by
  constructor
  · exact C2_archive_bounded_with_front_eviction.1 1 0 _ (by decide)
  · exact C2_archive_bounded_with_front_eviction.2 _ _ 20 9 rfl rfl

/-! ### Claim C3 — key-id uniqueness needs distinct timestamps -/

/-- All key ids held by the registry: the archived ids in insertion order,
followed by the current key's id (if any). -/
def allKeyIds (st : RegistryState) : List String :=
  st.archived_keys.map (fun ak => ak.key.key_id) ++
    (match st.current_keys with
     | some ck => [ck.key_id]
     | none => [])

theorem archived1_map_ids (st : RegistryState) (t : Nat) :
    ((match st.current_keys with
      | some ck => st.archived_keys ++ [{ key := ck, archived_at := t }]
      | none => st.archived_keys) : List ArchivedKey).map (fun ak => ak.key.key_id) =
      allKeyIds st := by
  cases hc : st.current_keys <;> simp [allKeyIds, hc]

theorem rotate_ok_archived_sublist (st : RegistryState) (n t : Nat) :
    ((rotate_jwt_keys st (Except.ok n) t).1.archived_keys.map
        (fun ak => ak.key.key_id)).Sublist (allKeyIds st) := by
  rw [← archived1_map_ids st t]
  apply List.Sublist.map
  cases hc : st.current_keys with
  | none =>
    simp only [rotate_jwt_keys, hc]
    split
    · exact List.drop_sublist 1 _
    · exact List.Sublist.refl _
  | some ck =>
    simp only [rotate_jwt_keys, hc]
    split
    · exact List.drop_sublist 1 _
    · exact List.Sublist.refl _

theorem allKeyIds_rotate_ok (st : RegistryState) (n t : Nat) :
    allKeyIds (rotate_jwt_keys st (Except.ok n) t).1 =
      (rotate_jwt_keys st (Except.ok n) t).1.archived_keys.map (fun ak => ak.key.key_id)
        ++ [mkKeyId t] := rfl

theorem rotateMany_ok_distinct_ids (evs : List (Except String Nat × Nat)) :
    ∀ (st : RegistryState) (past : List Nat),
      (allKeyIds st).Nodup →
      (∀ id ∈ allKeyIds st, id = "initial" ∨ ∃ s ∈ past, id = mkKeyId s) →
      (∀ ev ∈ evs, (ev.1).isOk = true) →
      (evs.map Prod.snd).Nodup →
      (∀ u ∈ evs.map Prod.snd, u ∉ past) →
      (allKeyIds (rotateMany st evs)).Nodup := by
  induction evs with
  | nil => intro st past hnd _ _ _ _; exact hnd
  | cons ev evs ih =>
    intro st past hnd hsub hok htnd htfresh
    obtain ⟨g, t⟩ := ev
    cases g with
    | error e =>
      have hbad := hok (Except.error e, t) (List.mem_cons_self _ _)
      simp [Except.isOk, Except.toBool] at hbad
    | ok n =>
      rw [rotateMany_cons]
      have hsubl := rotate_ok_archived_sublist st n t
      apply ih _ (t :: past)
      · rw [allKeyIds_rotate_ok]
        have hnd' := hnd.sublist hsubl
        have hfresh : mkKeyId t ∉
            (rotate_jwt_keys st (Except.ok n) t).1.archived_keys.map
              (fun ak => ak.key.key_id) := by
          intro hmem
          rcases hsub _ (hsubl.subset hmem) with h1 | ⟨s, hs, h2⟩
          · exact mkKeyId_ne_initial t h1
          · exact htfresh t (by simp) (mkKeyId_injective h2 ▸ hs)
        rw [List.nodup_append]
        exact ⟨hnd', List.nodup_singleton _,
          fun x hx hxa => by
            rw [List.mem_singleton] at hxa
            exact hfresh (hxa ▸ hx)⟩
      · rw [allKeyIds_rotate_ok]
        intro id hid
        rcases List.mem_append.1 hid with hida | hidt
        · rcases hsub _ (hsubl.subset hida) with h1 | ⟨s, hs, h2⟩
          · exact Or.inl h1
          · exact Or.inr ⟨s, List.mem_cons_of_mem _ hs, h2⟩
        · rw [List.mem_singleton] at hidt
          exact Or.inr ⟨t, List.mem_cons_self _ _, hidt⟩
      · exact fun ev hev => hok ev (List.mem_cons_of_mem _ hev)
      · have htnd' : (t :: evs.map Prod.snd).Nodup := htnd
        exact htnd'.of_cons
      · have htnd' : (t :: evs.map Prod.snd).Nodup := htnd
        intro u hu
        simp only [List.mem_cons]
        push_neg
        constructor
        · intro hut
          subst hut
          exact (List.nodup_cons.1 htnd').1 hu
        · exact htfresh u (List.mem_cons_of_mem _ hu)

/-- Claim C3 (counterexample).  Key identifiers are not unique: rotations
in the same integer second mint the same `key_id`.  Starting from the
bootstrapped registry, successful rotations at times 1, 5, 5, 5 leave the
archived-key sequence containing the id `"key_5"` twice. -/
theorem C3_counterexample :
    ¬ ((rotateMany (bootstrappedState 1 0)
        [(Except.ok 11, 1), (Except.ok 12, 5), (Except.ok 13, 5), (Except.ok 14, 5)]).archived_keys.map
          (fun ak => ak.key.key_id)).Nodup := by
  decide

/-- Claim C3 (amended).  For every sequence of *successful* rotation calls
whose integer timestamps are pairwise distinct, all key ids in the registry
(the archived ids together with the current key's id) are pairwise
distinct; in particular the archived sequence never holds the same
`key_id` twice and each newly minted id differs from the current and all
archived ids.  (Rotations sharing one integer second, or failing
rotations, violate uniqueness.) -/
theorem C3_distinct_times_unique_key_ids (P t0 : Nat)
    (evs : List (Except String Nat × Nat))
    (hok : ∀ ev ∈ evs, (ev.1).isOk = true)
    (htimes : (evs.map Prod.snd).Nodup) :
    (allKeyIds (rotateMany (bootstrappedState P t0) evs)).Nodup := by
  apply rotateMany_ok_distinct_ids evs (bootstrappedState P t0) []
  · simp [allKeyIds, bootstrappedState]
  · intro id hid
    left
    simpa [allKeyIds, bootstrappedState] using hid
  · exact hok
  · exact htimes
  · simp

/-- Witness for C3 at concrete inputs: three successful rotations at
distinct seconds leave all key ids distinct. -/
theorem C3_witness :
    (allKeyIds (rotateMany (bootstrappedState 1 0)
      [(Except.ok 11, 1), (Except.ok 12, 2), (Except.ok 13, 3)])).Nodup :=
  C3_distinct_times_unique_key_ids 1 0 _ (by decide) (by decide)

/-! ### Claim C6 — rotation preserves in-flight tokens -/

theorem rotate_ok_archived_concat (st : RegistryState) (K1 : KeyEntry) (n t : Nat)
    (hcur : st.current_keys = some K1) :
    ∃ l : List ArchivedKey,
      (rotate_jwt_keys st (Except.ok n) t).1.archived_keys =
        l ++ [{ key := K1, archived_at := t }] := by
  simp only [rotate_jwt_keys, hcur]
  split
  · next hgt =>
    refine ⟨st.archived_keys.drop 1, ?_⟩
    rw [List.drop_append_eq_append_drop]
    have hlen : 1 ≤ st.archived_keys.length := by
      simp only [List.length_append, List.length_singleton] at hgt
      omega
    simp [Nat.sub_eq_zero_of_le hlen]
  · exact ⟨st.archived_keys, rfl⟩

/-- Claim C6 (confirmed).  For every subject: a token issued while key `K1`
is current (an honest pair, with a key id that is neither empty nor equal
to the id the rotation will mint) still verifies after one successful
rotation, before its expiry — the verifier resolves `K1`'s public key from
the archived sequence — and a token issued after the rotation is signed by
the new current key and also verifies. -/
theorem C6_rotation_preserves_inflight_tokens
    (st : RegistryState) (K1 : KeyEntry)
    (secret cfgA now vnow t n now2 vnow2 d d2 : Nat) (subject : String)
    (hcur : st.current_keys = some K1) (hkey : K1.privateKey = K1.publicKey)
    (hid1 : K1.key_id ≠ mkKeyId t) (hid2 : K1.key_id ≠ "")
    (hexp : vnow ≤ now + d) (hexp2 : vnow2 ≤ now2 + d2) :
    find_key_for_token (rotate_jwt_keys st (Except.ok n) t).1
        (Token.wellFormed (create_access_token st secret cfgA now (some d) subject)) =
      some K1.publicKey ∧
    verify_token (rotate_jwt_keys st (Except.ok n) t).1 secret vnow
        (Token.wellFormed (create_access_token st secret cfgA now (some d) subject))
        "access" = some subject ∧
    (create_access_token (rotate_jwt_keys st (Except.ok n) t).1
        secret cfgA now2 (some d2) subject).sigKey = n ∧
    verify_token (rotate_jwt_keys st (Except.ok n) t).1 secret vnow2
        (Token.wellFormed (create_access_token (rotate_jwt_keys st (Except.ok n) t).1
          secret cfgA now2 (some d2) subject))
        "access" = some subject := by
  have hcur1 : (rotate_jwt_keys st (Except.ok n) t).1.current_keys =
      some { privateKey := n, publicKey := n, created_at := t, key_id := mkKeyId t } := rfl
  have hT : create_access_token st secret cfgA now (some d) subject =
      { payload := { sub := some subject, exp := some (now + d), type := some "access",
                     kid := some K1.key_id },
        alg := Alg.RS256, sigKey := K1.privateKey } := by
    simp [create_access_token, hcur]
  obtain ⟨l, hl⟩ := rotate_ok_archived_concat st K1 n t hcur
  have hfind : find_key_for_token (rotate_jwt_keys st (Except.ok n) t).1
      (Token.wellFormed (create_access_token st secret cfgA now (some d) subject)) =
      some K1.publicKey := by
    rw [hT]
    simp only [find_key_for_token, get_unverified_claims, hcur1, hl, Option.map_some]
    rw [if_neg]
    · simp [List.reverse_append]
    · simp [hid1, hid2]
  have hnotlt : ¬ (now + d < vnow) := by omega
  have hnotlt2 : ¬ (now2 + d2 < vnow2) := by omega
  refine ⟨hfind, ?_, rfl, ?_⟩
  · rw [hT] at hfind ⊢
    rw [hkey] at hfind ⊢
    simp [verify_token, hfind, jwt_decode, Except.toOption, hnotlt]
  · simp [verify_token, find_key_for_token, create_access_token, jwt_decode,
      get_unverified_claims, hcur1, Except.toOption, hnotlt2]

/-- Witness for C6 at concrete inputs. -/
theorem C6_witness :
    find_key_for_token (rotate_jwt_keys (bootstrappedState 7 0) (Except.ok 8) 50).1
        (Token.wellFormed (create_access_token (bootstrappedState 7 0) 99 600 5 (some 100) "alice")) =
      some 7 ∧
    verify_token (rotate_jwt_keys (bootstrappedState 7 0) (Except.ok 8) 50).1 99 10
        (Token.wellFormed (create_access_token (bootstrappedState 7 0) 99 600 5 (some 100) "alice"))
        "access" = some "alice" ∧
    (create_access_token (rotate_jwt_keys (bootstrappedState 7 0) (Except.ok 8) 50).1
        99 600 60 (some 100) "alice").sigKey = 8 ∧
    verify_token (rotate_jwt_keys (bootstrappedState 7 0) (Except.ok 8) 50).1 99 70
        (Token.wellFormed (create_access_token (rotate_jwt_keys (bootstrappedState 7 0) (Except.ok 8) 50).1
          99 600 60 (some 100) "alice"))
        "access" = some "alice" :=
  C6_rotation_preserves_inflight_tokens (bootstrappedState 7 0)
    { privateKey := 7, publicKey := 7, created_at := 0, key_id := "initial" }
    99 600 5 10 50 8 60 70 100 100 "alice"
    rfl rfl (by decide) (by decide) (by decide) (by decide)

/-! ### Failure analysis of `verify_token` (shared by C7 and C10) -/

theorem jwt_decode_wf_ok (tok : SignedToken) (key : Nat) (alg : Alg) (now : Nat)
    (p : Payload) (h : jwt_decode (Token.wellFormed tok) key alg now = Except.ok p) :
    p = tok.payload ∧ ∀ e, tok.payload.exp = some e → ¬ e < now := by
  simp only [jwt_decode] at h
  split_ifs at h with h1 h2
  cases hexp : tok.payload.exp with
  | none =>
    rw [hexp] at h
    simp at h
    exact ⟨h.symm, fun e he => Option.noConfusion he⟩
  | some e =>
    rw [hexp] at h
    simp at h
    split_ifs at h with h3
    simp at h
    exact ⟨h.symm, fun e' he' => by cases he'; exact h3⟩

theorem verify_final_some (p : Payload) (ty s : String)
    (h : (if p.type ≠ some ty then none
          else match p.sub with | none => none | some s0 => some s0) = some s) :
    p.type = some ty ∧ p.sub = some s := by
  split_ifs at h with ht
  cases hsub : p.sub with
  | none => rw [hsub] at h; simp at h
  | some s0 =>
    rw [hsub] at h
    simp at h
    exact ⟨not_ne_iff.1 ht, by rw [h]⟩

theorem verify_token_wf_some (st : RegistryState) (secret now : Nat) (tok : SignedToken)
    (ty s : String)
    (h : verify_token st secret now (Token.wellFormed tok) ty = some s) :
    tok.payload.type = some ty ∧ tok.payload.sub = some s ∧
      ∀ e, tok.payload.exp = some e → ¬ e < now := by
  cases hfind : find_key_for_token st (Token.wellFormed tok) with
  | some pk =>
    cases hdec : jwt_decode (Token.wellFormed tok) pk Alg.RS256 now with
    | ok p =>
      simp only [verify_token, hfind, hdec, Except.toOption] at h
      obtain ⟨hp, hexpok⟩ := jwt_decode_wf_ok tok pk Alg.RS256 now p hdec
      subst hp
      obtain ⟨h1, h2⟩ := verify_final_some _ _ _ h
      exact ⟨h1, h2, hexpok⟩
    | error err =>
      cases hdec2 : jwt_decode (Token.wellFormed tok) secret Alg.HS256 now with
      | ok p =>
        simp only [verify_token, hfind, hdec, hdec2, Except.toOption] at h
        obtain ⟨hp, hexpok⟩ := jwt_decode_wf_ok tok secret Alg.HS256 now p hdec2
        subst hp
        obtain ⟨h1, h2⟩ := verify_final_some _ _ _ h
        exact ⟨h1, h2, hexpok⟩
      | error err2 =>
        simp only [verify_token, hfind, hdec, hdec2, Except.toOption] at h
        exact Option.noConfusion h
  | none =>
    cases hdec2 : jwt_decode (Token.wellFormed tok) secret Alg.HS256 now with
    | ok p =>
      simp only [verify_token, hfind, hdec2, Except.toOption] at h
      obtain ⟨hp, hexpok⟩ := jwt_decode_wf_ok tok secret Alg.HS256 now p hdec2
      subst hp
      obtain ⟨h1, h2⟩ := verify_final_some _ _ _ h
      exact ⟨h1, h2, hexpok⟩
    | error err2 =>
      simp only [verify_token, hfind, hdec2, Except.toOption] at h
      exact Option.noConfusion h

theorem verify_malformed_none (st : RegistryState) (secret now : Nat) (raw ty : String) :
    verify_token st secret now (Token.malformed raw) ty = none := by
  cases hc : st.current_keys <;>
    simp [verify_token, find_key_for_token, get_unverified_claims, jwt_decode, hc,
      Except.toOption]

theorem verify_rs256_badsig_none (st : RegistryState) (secret now : Nat)
    (tok : SignedToken) (ty : String) (halg : tok.alg = Alg.RS256)
    (hmis : ∀ p, find_key_for_token st (Token.wellFormed tok) = some p → p ≠ tok.sigKey) :
    verify_token st secret now (Token.wellFormed tok) ty = none := by
  cases hfind : find_key_for_token st (Token.wellFormed tok) with
  | none => simp [verify_token, hfind, jwt_decode, halg, Except.toOption]
  | some pk =>
    have hne : tok.sigKey ≠ pk := Ne.symm (hmis pk hfind)
    simp [verify_token, hfind, jwt_decode, halg, hne, Except.toOption]

theorem verify_wrong_type_none (st : RegistryState) (secret now : Nat)
    (tok : SignedToken) (ty : String) (hty : tok.payload.type ≠ some ty) :
    verify_token st secret now (Token.wellFormed tok) ty = none := by
  cases hv : verify_token st secret now (Token.wellFormed tok) ty with
  | none => rfl
  | some s => exact absurd (verify_token_wf_some st secret now tok ty s hv).1 hty

theorem verify_expired_none (st : RegistryState) (secret now : Nat)
    (tok : SignedToken) (ty : String) (e : Nat)
    (hexp : tok.payload.exp = some e) (hlt : e < now) :
    verify_token st secret now (Token.wellFormed tok) ty = none := by
  cases hv : verify_token st secret now (Token.wellFormed tok) ty with
  | none => rfl
  | some s =>
    exact absurd hlt ((verify_token_wf_some st secret now tok ty s hv).2.2 e hexp)

theorem verify_no_sub_none (st : RegistryState) (secret now : Nat)
    (tok : SignedToken) (ty : String) (hsub : tok.payload.sub = none) :
    verify_token st secret now (Token.wellFormed tok) ty = none := by
  cases hv : verify_token st secret now (Token.wellFormed tok) ty with
  | none => rfl
  | some s =>
    have := (verify_token_wf_some st secret now tok ty s hv).2.1
    rw [hsub] at this
    cases this

/-! ### Claim C7 — verification failures are not typed -/

/-- Claim C7 (counterexample).  Verification failures are not typed: an
unparseable token and a correctly signed, unexpired token of the wrong
kind produce the very same failure value `none` — the return value
identifies no failure reason. -/
theorem C7_counterexample :
    verify_token (bootstrappedState 7 0) 99 10 (Token.malformed "not-a-jwt") "access" = none ∧
    verify_token (bootstrappedState 7 0) 99 10
      (Token.wellFormed
        { payload := { sub := some "alice", exp := some 1000, type := some "refresh",
                       kid := some "initial" },
          alg := Alg.RS256, sigKey := 7 })
      "access" = none :=
  ⟨rfl, rfl⟩

/-- Claim C7 (amended).  For every invalid token, `verify_token` returns
the single undifferentiated failure value `None`: tokens that cannot be
parsed, RS256 tokens whose resolved key does not verify their signature,
tokens whose `type` claim does not match the expected kind, and expired
tokens all yield exactly `none`; the specific reason is only written to
the debug log, not returned. -/
theorem C7_failures_all_return_none :
    (∀ (st : RegistryState) (secret now : Nat) (raw ty : String),
      verify_token st secret now (Token.malformed raw) ty = none) ∧
    (∀ (st : RegistryState) (secret now : Nat) (tok : SignedToken) (ty : String),
      tok.alg = Alg.RS256 →
      (∀ p, find_key_for_token st (Token.wellFormed tok) = some p → p ≠ tok.sigKey) →
      verify_token st secret now (Token.wellFormed tok) ty = none) ∧
    (∀ (st : RegistryState) (secret now : Nat) (tok : SignedToken) (ty : String),
      tok.payload.type ≠ some ty →
      verify_token st secret now (Token.wellFormed tok) ty = none) ∧
    (∀ (st : RegistryState) (secret now : Nat) (tok : SignedToken) (ty : String) (e : Nat),
      tok.payload.exp = some e → e < now →
      verify_token st secret now (Token.wellFormed tok) ty = none) :=
  ⟨verify_malformed_none,
   verify_rs256_badsig_none,
   verify_wrong_type_none,
   verify_expired_none⟩

/-- Witness for C7 at concrete inputs: one token of each failure class,
all returning `none`. -/
theorem C7_witness :
    verify_token (bootstrappedState 3 0) 42 20 (Token.malformed "xyz") "access" = none ∧
    verify_token (bootstrappedState 3 0) 42 20
      (Token.wellFormed
        { payload := { sub := some "bob", exp := some 900, type := some "access",
                       kid := some "initial" },
          alg := Alg.RS256, sigKey := 5 })
      "access" = none ∧
    verify_token (bootstrappedState 3 0) 42 20
      (Token.wellFormed
        { payload := { sub := some "bob", exp := some 900, type := some "refresh",
                       kid := some "initial" },
          alg := Alg.RS256, sigKey := 3 })
      "access" = none ∧
    verify_token (bootstrappedState 3 0) 42 20
      (Token.wellFormed
        { payload := { sub := some "bob", exp := some 15, type := some "access",
                       kid := some "initial" },
          alg := Alg.RS256, sigKey := 3 })
      "access" = none := by
  refine ⟨C7_failures_all_return_none.1 (bootstrappedState 3 0) 42 20 "xyz" "access",
    C7_failures_all_return_none.2.1 (bootstrappedState 3 0) 42 20 _ "access" rfl ?_,
    C7_failures_all_return_none.2.2.1 (bootstrappedState 3 0) 42 20 _ "access" (by decide),
    C7_failures_all_return_none.2.2.2 (bootstrappedState 3 0) 42 20 _ "access" 15 rfl
      (by decide)⟩
  intro p hp
  have hp3 : (some 3 : Option Nat) = some p := hp
  injection hp3 with hh
  subst hh
  decide

/-! ### Claim C10 — `verify_token` is total and returns `none` on failure -/

/-- Claim C10 (confirmed).  `verify_token` is total at its interface: it
is a function into `Option String` (exceptions of the embedded `jose`
primitives are modelled as `Except` values and all are caught), so every
call returns either a subject string or `none`; in particular an
unparseable token, an RS256 token whose resolved key does not match its
signature, a type mismatch, an expired token, and a structurally valid
token lacking a `sub` claim all yield `none`. -/
theorem C10_verify_token_total :
    (∀ (st : RegistryState) (secret now : Nat) (tok : Token) (ty : String),
      verify_token st secret now tok ty = none ∨
        ∃ s, verify_token st secret now tok ty = some s) ∧
    (∀ (st : RegistryState) (secret now : Nat) (raw ty : String),
      verify_token st secret now (Token.malformed raw) ty = none) ∧
    (∀ (st : RegistryState) (secret now : Nat) (tok : SignedToken) (ty : String),
      tok.alg = Alg.RS256 →
      (∀ p, find_key_for_token st (Token.wellFormed tok) = some p → p ≠ tok.sigKey) →
      verify_token st secret now (Token.wellFormed tok) ty = none) ∧
    (∀ (st : RegistryState) (secret now : Nat) (tok : SignedToken) (ty : String),
      tok.payload.type ≠ some ty →
      verify_token st secret now (Token.wellFormed tok) ty = none) ∧
    (∀ (st : RegistryState) (secret now : Nat) (tok : SignedToken) (ty : String) (e : Nat),
      tok.payload.exp = some e → e < now →
      verify_token st secret now (Token.wellFormed tok) ty = none) ∧
    (∀ (st : RegistryState) (secret now : Nat) (tok : SignedToken) (ty : String),
      tok.payload.sub = none →
      verify_token st secret now (Token.wellFormed tok) ty = none) := by
  refine ⟨?_, verify_malformed_none, verify_rs256_badsig_none, verify_wrong_type_none,
    verify_expired_none, verify_no_sub_none⟩
  intro st secret now tok ty
  cases hv : verify_token st secret now tok ty with
  | none => exact Or.inl rfl
  | some s => exact Or.inr ⟨s, rfl⟩

/-- Witness for C10 at concrete inputs. -/
theorem C10_witness :
    verify_token (bootstrappedState 2 0) 55 30 (Token.malformed "@@") "refresh" = none ∧
    verify_token (bootstrappedState 2 0) 55 30
      (Token.wellFormed
        { payload := { sub := none, exp := some 900, type := some "access",
                       kid := some "initial" },
          alg := Alg.RS256, sigKey := 2 })
      "access" = none ∧
    verify_token (bootstrappedState 2 0) 55 30
      (Token.wellFormed
        { payload := { sub := some "carol", exp := some 25, type := some "access",
                       kid := some "initial" },
          alg := Alg.RS256, sigKey := 2 })
      "access" = none :=
  ⟨C10_verify_token_total.2.1 (bootstrappedState 2 0) 55 30 "@@" "refresh",
   C10_verify_token_total.2.2.2.2.2 (bootstrappedState 2 0) 55 30 _ "access" rfl,
   C10_verify_token_total.2.2.2.2.1 (bootstrappedState 2 0) 55 30 _ "access" 25 rfl
     (by decide)⟩

/-! ### Claim C8 — archive eviction invalidates the oldest key's tokens -/

/-- Claim C8 (counterexample).  After six successful rotations the
original key's token does fail verification, but not "with
`InvalidSignature`": `verify_token` returns the same undifferentiated
`none` that an unparseable token receives — no typed failure value
exists. -/
theorem C8_counterexample :
    verify_token
      (rotateMany (bootstrappedState 1 0)
        [(Except.ok 11, 1), (Except.ok 12, 2), (Except.ok 13, 3), (Except.ok 14, 4),
         (Except.ok 15, 5), (Except.ok 16, 6)]) 99 100
      (Token.wellFormed
        { payload := { sub := some "u", exp := some 1000000, type := some "access",
                       kid := some "initial" },
          alg := Alg.RS256, sigKey := 1 })
      "access" = none ∧
    verify_token
      (rotateMany (bootstrappedState 1 0)
        [(Except.ok 11, 1), (Except.ok 12, 2), (Except.ok 13, 3), (Except.ok 14, 4),
         (Except.ok 15, 5), (Except.ok 16, 6)]) 99 100
      (Token.malformed "junk") "access" = none :=
  ⟨rfl, rfl⟩

/-- Claim C8 (amended).  Starting from a bootstrapped registry whose
current key is `K0` (key id `"initial"`), after 6 sequential successful
rotations `K0` is no longer resolvable by key-id lookup — neither as
current nor from the archived sequence — and any RS256 token carrying
`kid = "initial"` now fails verification, `verify_token` returning the
undifferentiated failure value `none` (not a typed `InvalidSignature`). -/
theorem C8_six_rotations_evict_initial_key
    (P t0 secret vnow : Nat) (n1 n2 n3 n4 n5 n6 t1 t2 t3 t4 t5 t6 : Nat)
    (sub : Option String) (e : Option Nat) (tp : Option String) (k : Nat) (ty : String) :
    find_key_for_token
        (rotateMany (bootstrappedState P t0)
          [(Except.ok n1, t1), (Except.ok n2, t2), (Except.ok n3, t3),
           (Except.ok n4, t4), (Except.ok n5, t5), (Except.ok n6, t6)])
        (Token.wellFormed
          { payload := { sub := sub, exp := e, type := tp, kid := some "initial" },
            alg := Alg.RS256, sigKey := k }) = none ∧
    verify_token
        (rotateMany (bootstrappedState P t0)
          [(Except.ok n1, t1), (Except.ok n2, t2), (Except.ok n3, t3),
           (Except.ok n4, t4), (Except.ok n5, t5), (Except.ok n6, t6)])
        secret vnow
        (Token.wellFormed
          { payload := { sub := sub, exp := e, type := tp, kid := some "initial" },
            alg := Alg.RS256, sigKey := k }) ty = none := by
  have hst : rotateMany (bootstrappedState P t0)
      [(Except.ok n1, t1), (Except.ok n2, t2), (Except.ok n3, t3),
       (Except.ok n4, t4), (Except.ok n5, t5), (Except.ok n6, t6)] =
      { current_keys :=
          some { privateKey := n6, publicKey := n6, created_at := t6, key_id := mkKeyId t6 },
        archived_keys :=
          [{ key := { privateKey := n1, publicKey := n1, created_at := t1,
                      key_id := mkKeyId t1 }, archived_at := t2 },
           { key := { privateKey := n2, publicKey := n2, created_at := t2,
                      key_id := mkKeyId t2 }, archived_at := t3 },
           { key := { privateKey := n3, publicKey := n3, created_at := t3,
                      key_id := mkKeyId t3 }, archived_at := t4 },
           { key := { privateKey := n4, publicKey := n4, created_at := t4,
                      key_id := mkKeyId t4 }, archived_at := t5 },
           { key := { privateKey := n5, publicKey := n5, created_at := t5,
                      key_id := mkKeyId t5 }, archived_at := t6 }] } := rfl
  have hne1 := Ne.symm (mkKeyId_ne_initial t1)
  have hne2 := Ne.symm (mkKeyId_ne_initial t2)
  have hne3 := Ne.symm (mkKeyId_ne_initial t3)
  have hne4 := Ne.symm (mkKeyId_ne_initial t4)
  have hne5 := Ne.symm (mkKeyId_ne_initial t5)
  have hne6 := Ne.symm (mkKeyId_ne_initial t6)
  have hie : ("initial" : String) ≠ "" := by decide
  rw [hst]
  have hfind : find_key_for_token
      { current_keys :=
          some { privateKey := n6, publicKey := n6, created_at := t6, key_id := mkKeyId t6 },
        archived_keys :=
          [{ key := { privateKey := n1, publicKey := n1, created_at := t1,
                      key_id := mkKeyId t1 }, archived_at := t2 },
           { key := { privateKey := n2, publicKey := n2, created_at := t2,
                      key_id := mkKeyId t2 }, archived_at := t3 },
           { key := { privateKey := n3, publicKey := n3, created_at := t3,
                      key_id := mkKeyId t3 }, archived_at := t4 },
           { key := { privateKey := n4, publicKey := n4, created_at := t4,
                      key_id := mkKeyId t4 }, archived_at := t5 },
           { key := { privateKey := n5, publicKey := n5, created_at := t5,
                      key_id := mkKeyId t5 }, archived_at := t6 }] }
      (Token.wellFormed
        { payload := { sub := sub, exp := e, type := tp, kid := some "initial" },
          alg := Alg.RS256, sigKey := k }) = none := by
    simp [find_key_for_token, get_unverified_claims, hne1, hne2, hne3, hne4, hne5, hne6, hie]
  refine ⟨hfind, ?_⟩
  simp [verify_token, hfind, jwt_decode, Except.toOption]

end Security
